import Mathlib

/-!
Shallow embedding of the three-stage research pipeline in `src/agents.py`:
the `Investigador` (source provider), `Redactor` (drafting stage),
`Revisor` (heuristic review stage) and `Coordinator`.  External backends
(the DuckDuckGo search tool and the Hugging Face inference client) are
modelled as explicit parameters: a backend is a function from the text the
code sends it to an `Except String`-value, where `Except.error e` models the
backend call raising a Python exception with message `e`.
-/

set_option maxRecDepth 2048

namespace Agents

/-- Helper for `containsSubstr`: the pattern is a prefix of some suffix of
the haystack. -/
def containsSub (pat : List Char) : List Char → Bool
  | [] => pat.isPrefixOf []
  | c :: t => pat.isPrefixOf (c :: t) || containsSub pat t

/-- Membership test of a pattern inside a string, modelling the Python
operator `in` on `str`. -/
def containsSubstr (s pat : String) : Bool :=
  containsSub pat.data s.data

/-- Model of Python `str.startswith`. -/
def strStartsWith (s pat : String) : Bool :=
  pat.data.isPrefixOf s.data

/-- Model of Python string slicing `s[:n]` (by code points). -/
def strTake (s : String) (n : Nat) : String :=
  ⟨s.data.take n⟩

/-- Model of Python `str.strip()` with no argument: drop leading and
trailing whitespace (the rarer Python whitespace characters `\f`, `\v`
outside `Char.isWhitespace` are not modelled). -/
def pyStrip (s : String) : String :=
  ⟨((s.data.dropWhile Char.isWhitespace).reverse.dropWhile Char.isWhitespace).reverse⟩

/-- Model of Python `str.lower` (ASCII letters; the inputs this code
lowers are compared against the ASCII pattern `"sin cita"`). -/
def pyLower (s : String) : String :=
  ⟨s.data.map Char.toLower⟩

/-- Helper for `pySplitlines`: split on `\n`, `\r\n` or `\r`. -/
def splitlinesAux : List Char → List Char → List String
  | [], acc => [⟨acc.reverse⟩]
  | '\r' :: '\n' :: t, acc => ⟨acc.reverse⟩ :: splitlinesAux t []
  | '\r' :: t, acc => ⟨acc.reverse⟩ :: splitlinesAux t []
  | '\n' :: t, acc => ⟨acc.reverse⟩ :: splitlinesAux t []
  | c :: t, acc => splitlinesAux t (c :: acc)

/-- Model of Python `str.splitlines` for text whose line terminators are
`\n`, `\r\n` or `\r` (the rarer terminators `\v`, `\f`, `\x1c`..`\x1e`,
`\x85`, `U+2028`, `U+2029` are not modelled).  A trailing terminator
produces a trailing empty piece here where Python produces none; the one
use in `agents.py` filters out blank lines immediately afterwards, so the
two agree after that filter. -/
def pySplitlines (s : String) : List String :=
  splitlinesAux s.data []

/-- Helper for `pyWords`: count maximal non-whitespace runs; the flag
records whether the previous character was inside a word. -/
def pyWordsL : List Char → Bool → Nat
  | [], _ => 0
  | c :: t, inw =>
    if c.isWhitespace then pyWordsL t false
    else (if inw then 0 else 1) + pyWordsL t true

/-- Model of `len(s.split())` in Python: `str.split()` without separator
splits on maximal whitespace runs and drops empty pieces, so its length is
the number of maximal non-whitespace runs. -/
def pyWords (s : String) : Nat :=
  pyWordsL s.data false

/-- Helper for `splitDots`: split on a separator character, keeping empty
pieces, as Python `str.split(sep)` does. -/
def splitOnCharAux (sep : Char) : List Char → List Char → List String
  | [], acc => [⟨acc.reverse⟩]
  | c :: t, acc =>
    if c = sep then ⟨acc.reverse⟩ :: splitOnCharAux sep t []
    else splitOnCharAux sep t (c :: acc)

/-- Model of Python `summary.split(".")`. -/
def splitDots (s : String) : List String :=
  splitOnCharAux '.' s.data []

/-- Model of Python `sep.join(pieces)`. -/
def joinSep (sep : String) : List String → String
  | [] => ""
  | [x] => x
  | x :: xs => x ++ sep ++ joinSep sep xs

/-- Model of Python `dict.get(k, d)` over an association list with distinct
keys (the dictionaries built in `agents.py` are literal and have distinct
keys, so first-match lookup coincides with Python lookup). -/
def pyGet (kvs : List (String × String)) (k d : String) : String :=
  (kvs.lookup k).getD d

/-- Model of Python `k in dict` plus `dict[k]` access. -/
def pyGetOpt (kvs : List (String × String)) (k : String) : Option String :=
  kvs.lookup k

/-- Normalized search-result record built by `Investigador.buscar`
(`agents.py` lines 57-85): a Python dict with exactly the keys
`title`, `snippet`, `url`.  Modelling it as a structure makes the
three keys present by construction, exactly as every construction
site in the source builds all three. -/
structure SourceRecord where
  title : String
  snippet : String
  url : String
  deriving DecidableEq

/-- One element of a list-shaped raw search result: a mapping, or any
other value `x` represented by its string coercion `str(x)`. -/
inductive RawItem where
  | dict (kvs : List (String × String))
  | other (s : String)
  deriving DecidableEq

/-- Shape of the raw value returned by the search backend
(`DuckDuckGoSearchRun.run`): a bare string, a list/tuple of items, or a
payload whose parsing inside the `try` block of `buscar` raises a Python
exception with message `e` (reifying the reachability of the
`except Exception as e` branch at `agents.py` line 88). -/
inductive Raw where
  | str (s : String)
  | list (items : List RawItem)
  | malformed (e : String)
  deriving DecidableEq

/-- Normalization of one list element, `agents.py` lines 56-64: for a
mapping, `title` from `title`, `snippet` from `body` with fallback
`snippet`, `url` from `link` with fallback `url`; otherwise
`str(item)[:80]` as title and `str(item)` as snippet. -/
def normItem : RawItem → SourceRecord
  | .dict kvs =>
      { title := pyGet kvs "title" ""
        snippet := pyGet kvs "body" (pyGet kvs "snippet" "")
        url := pyGet kvs "link" (pyGet kvs "url" "") }
  | .other s => { title := strTake s 80, snippet := s, url := "" }

/-- Python `any(current.values())` on the three-field record. -/
def anyFields (c : SourceRecord) : Bool :=
  c.title ≠ "" || c.snippet ≠ "" || c.url ≠ ""

/-- One iteration of the line-parsing loop of `buscar`
(`agents.py` lines 69-80), threading `(results, current)`. -/
def parseLine (acc : List SourceRecord × SourceRecord) (line : String) :
    List SourceRecord × SourceRecord :=
  let results := acc.1
  let current := acc.2
  if strStartsWith line "http" || containsSubstr line "http" then
    (if anyFields current then results ++ [current] else results,
     { title := "", snippet := "", url := line })
  else if pyWords line ≤ 10 ∧ current.title = "" then
    (results, { current with title := line })
  else
    (results, { current with snippet := pyStrip (current.snippet ++ " " ++ line) })

/-- Body of the `try` block of `Investigador.buscar`
(`agents.py` lines 52-89) on a raw payload: the list branch maps the first
`top_k` items through `normItem`; the string branch runs the line
heuristic, appends the pending block, falls back to a single
`(query, raw[:1000], "")` record when nothing parsed, and truncates to
`top_k`; a payload whose parsing raises is converted by the `except`
branch into the single `"Error parseo DuckDuckGo: ..."` record. -/
def parseRaw (top_k : Nat) (query : String) : Raw → List SourceRecord
  | .list items => (items.take top_k).map normItem
  | .str s =>
      let lines := ((pySplitlines s).map pyStrip).filter (fun l => l ≠ "")
      let acc := lines.foldl parseLine ([], ⟨"", "", ""⟩)
      let results := if anyFields acc.2 then acc.1 ++ [acc.2] else acc.1
      let results := if results = [] then [⟨query, strTake s 1000, ""⟩] else results
      results.take top_k
  | .malformed e => [⟨"error", "Error parseo DuckDuckGo: " ++ e, ""⟩]

/-- `Investigador.buscar` (`agents.py` lines 43-89).  `top_k` is the field
set by `Investigador.__init__`; `backend` models `self.search_tool.run`,
called with the query.  The call to the backend happens at line 49,
before the `try` block begins at line 52: an exception raised by the
backend itself therefore propagates out of `buscar`. -/
def buscar (top_k : Nat) (query : String)
    (backend : String → Except String Raw) : Except String (List SourceRecord) :=
  match backend query with
  | .error e => .error e
  | .ok raw => .ok (parseRaw top_k query raw)

/-- One element of a list-shaped generation response (nesting deeper than
one level is never inspected by `agents.py`, which only looks at
`resp[0]`). -/
inductive PyItem where
  | str (s : String)
  | dict (kvs : List (String × String))
  deriving DecidableEq

/-- Shape of a generation-backend response: a bare string, a mapping with
string values, or a list. -/
inductive PyVal where
  | str (s : String)
  | dict (kvs : List (String × String))
  | list (xs : List PyItem)
  deriving DecidableEq

/-- Python `repr` of one string (quote-free ASCII content assumed, as in
the backend payloads this code handles). -/
def pyReprStr (s : String) : String :=
  "\x27" ++ s ++ "\x27"

/-- Python `str`/`repr` of a dict with string keys and values. -/
def pyReprDict (kvs : List (String × String)) : String :=
  "\x7b" ++ joinSep ", "
    (kvs.map (fun kv => pyReprStr kv.1 ++ ": " ++ pyReprStr kv.2)) ++ "\x7d"

/-- Python `repr` of a list element (strings get quoted). -/
def pyReprItem : PyItem → String
  | .str s => pyReprStr s
  | .dict kvs => pyReprDict kvs

/-- Python `str` of a list element (`str(first)` in `agents.py`). -/
def pyStrItem : PyItem → String
  | .str s => s
  | .dict kvs => pyReprDict kvs

/-- Python `str(resp)` on a whole response value. -/
def pyStr : PyVal → String
  | .str s => s
  | .dict kvs => pyReprDict kvs
  | .list xs => "[" ++ joinSep ", " (xs.map pyReprItem) ++ "]"

/-- `Redactor._build_prompt` (`agents.py` lines 100-115). -/
def build_prompt (topic : String) (sources : List SourceRecord) : String :=
  let header :=
    "Genera un resumen en español de aprox. 400-600 palabras en formato Markdown sobre: "
    ++ topic ++ "\n\n"
    ++ "Usa las siguientes fuentes (título / snippet / url). Cita con [número] cuando correspondan.\n\n"
  let body := (sources.foldl
    (fun (acc : String × Nat) s =>
      (acc.1 ++ "[" ++ toString acc.2 ++ "] Título: " ++ s.title
        ++ "\nSnippet: " ++ s.snippet ++ "\nURL: " ++ s.url ++ "\n\n",
       acc.2 + 1))
    ("", 1)).1
  let instructions :=
    "Estructura (Markdown):\n# Introducción\n## Hallazgos clave\n## Desafíos éticos y técnicos\n## Conclusión\n\n"
    ++ "Mantén un tono académico y claro. Si una afirmación no está en las fuentes, marca [sin cita]."
  header ++ body ++ instructions

/-- The `concatenated` input text of `generar_resumen`
(`agents.py` lines 123-125). -/
def concatSources (sources : List SourceRecord) : String :=
  sources.foldl
    (fun acc s => acc ++ s.title ++ "\n" ++ s.snippet ++ "\n" ++ s.url ++ "\n\n") ""

/-- Extraction from the `text_generation` fallback response of
`generar_resumen` (`agents.py` lines 143-155): for a dict, the first key
among `generated_text`, `text`, `output` is returned stripped, else
`str(resp2).strip()`; for a non-empty list, the first element's
`generated_text` stripped when it is a dict carrying that key, else
`str(first).strip()`; anything else is `str(resp2).strip()`. -/
def extractGenResp : PyVal → String
  | .dict kvs =>
      match pyGetOpt kvs "generated_text" with
      | some v => pyStrip v
      | none =>
        match pyGetOpt kvs "text" with
        | some v => pyStrip v
        | none =>
          match pyGetOpt kvs "output" with
          | some v => pyStrip v
          | none => pyStrip (pyReprDict kvs)
  | .list (first :: _) =>
      match first with
      | .dict kvs =>
        match pyGetOpt kvs "generated_text" with
        | some v => pyStrip v
        | none => pyStrip (pyStrItem first)
      | .str s => pyStrip s
  | v => pyStrip (pyStr v)

/-- `Redactor.generar_resumen` (`agents.py` lines 117-158).  `summB`
models `self.client.summarization`, called with the concatenated source
text; `genB` models `self.client.text_generation`, called with the built
prompt.  The inner `try` falls back to `genB` when `summB` raises; the
outer `try` converts an exception from the fallback into the diagnostic
`"Error en generación de resumen: ..."` string. -/
def generar_resumen (topic : String) (sources : List SourceRecord)
    (summB : String → Except String PyVal)
    (genB : String → Except String PyVal) : String :=
  let concatenated := concatSources sources
  let prompt := build_prompt topic sources
  match summB concatenated with
  | .ok resp =>
      match resp with
      | .dict kvs =>
        match pyGetOpt kvs "summary_text" with
        | some v => pyStrip v
        | none => pyStrip (pyStr (.dict kvs))
      | v => pyStrip (pyStr v)
  | .error _ =>
      match genB prompt with
      | .ok resp2 => extractGenResp resp2
      | .error e => "Error en generación de resumen: " ++ e

/-- `Revisor.evaluar_texto` (`agents.py` lines 168-212): four heuristic
notes (structure, word-count banding 350/700, `sin cita` markers,
sentences over 80 words) followed by three fixed suggestions.  The
`sources` parameter is accepted, as in the source, and never read. -/
def evaluar_texto (summary : String) (sources : List SourceRecord) : String :=
  let note1 :=
    if containsSubstr summary "# Introducción" || containsSubstr summary "## Hallazgos" then
      "Estructura: Las secciones principales están presentes."
    else
      "Estructura: Falta alguna sección esperada (introducción/hallazgos/conclusión)."
  let words := pyWords summary
  let note2 :=
    if words < 350 then
      "Longitud: corto (" ++ toString words ++ " palabras). Objetivo: 400-600 palabras."
    else if words > 700 then
      "Longitud: largo (" ++ toString words ++ " palabras). Recomendar acotar a 400-600 palabras."
    else
      "Longitud: adecuada (" ++ toString words ++ " palabras)."
  let missing_cites :=
    containsSubstr (pyLower summary) "sin cita" || containsSubstr (pyLower summary) "[sin cita]"
  let note3 :=
    if missing_cites then
      "Citas: Se detectaron marcadores de afirmaciones sin cita. Añadir referencias específicas donde proceda."
    else
      "Citas: No se detectaron marcadores obvios de \x27sin cita\x27 — verificar manualmente contra las fuentes."
  let long_sentences := (splitDots summary).filter (fun s => pyWords s > 80)
  let note4 :=
    if long_sentences ≠ [] then
      "Coherencia: Hay oraciones muy largas. Divídelas para mejorar claridad."
    else
      "Coherencia: Buen nivel de claridad en oraciones."
  let notes := [note1, note2, note3, note4]
  let suggestions :=
    ["1) Añadir al menos 2 citas directas a las fuentes enumeradas para las afirmaciones clave.",
     "2) Revisar secciones \x27Desafíos éticos y técnicos\x27 para incluir un ejemplo concreto (por ejemplo, un caso de uso clínico).",
     "3) Comprobar datos numéricos en las URLs originales para evitar inexactitudes."]
  "• " ++ joinSep "\n• " notes ++ "\n\nSugerencias:\n"
    ++ joinSep "\n" suggestions

/-- Extraction from the rewrite response inside `Coordinator.run`
(`agents.py` lines 256-271).  Unlike `extractGenResp` this does not strip,
and in the dict branch a found-but-empty value is falsy in Python, so the
code falls back to `str(resp)` both when no key is present and when the
found value is the empty string. -/
def extractRewrite : PyVal → String
  | .dict kvs =>
      let ft :=
        match pyGetOpt kvs "generated_text" with
        | some v => v
        | none =>
          match pyGetOpt kvs "text" with
          | some v => v
          | none => (pyGetOpt kvs "output").getD ""
      if ft = "" then pyReprDict kvs else ft
  | .list (first :: _) =>
      match first with
      | .dict kvs =>
        match pyGetOpt kvs "generated_text" with
        | some v => v
        | none => pyStrItem first
      | .str s => s
  | v => pyStr v

/-- The final document assembled by `Coordinator.run`
(`agents.py` lines 276-285).  The `s.get('title','(sin título)')` defaults
there fire only on a missing key, which cannot occur for records carrying
all three fields. -/
def assembleFull (topic : String) (sources : List SourceRecord)
    (final_text review : String) : String :=
  let header := "# Resumen final - " ++ topic ++ "\n\n## Fuentes (resumen):\n"
  let body := (sources.foldl
    (fun (acc : String × Nat) s =>
      (acc.1 ++ toString acc.2 ++ ". " ++ s.title ++ " - " ++ s.url ++ "\n\n"
        ++ "> " ++ s.snippet ++ "\n\n",
       acc.2 + 1))
    ("", 1)).1
  header ++ body ++ "\n## Resumen Final\n\n" ++ final_text ++ "\n\n"
    ++ "## Feedback del Revisor\n\n" ++ review ++ "\n"

/-- The rewrite prompt of `Coordinator.run` (`agents.py` lines 243-248). -/
def rewritePrompt (draft review : String) : String :=
  "REQUERIMIENTO: Reescribe el resumen incorporando las siguientes sugerencias del revisor. "
  ++ "Mantén formato Markdown y aprox. 400-600 palabras.\n\n"
  ++ "BORRADOR:\n" ++ draft ++ "\n\n"
  ++ "FEEDBACK:\n" ++ review ++ "\n\n"

/-- The value returned by `Coordinator.run` (`agents.py` lines 287-292). -/
structure PipelineResult where
  sources : List SourceRecord
  draft : String
  review : String
  final : String
  deriving DecidableEq

/-- `Coordinator.run` (`agents.py` lines 224-292).  `inv_top_k` is the
`top_k` field of the `Investigador` fixed at its construction; the `top_k`
parameter of `run` itself appears in the Python signature and is never
used, which the embedding mirrors.  `rewriteB` models the
`text_generation` call of the rewrite step, whose failure falls back to
`draft + "\n\n### Ajustes sugeridos:\n" + review`.  `buscar` alone can
raise (its backend call sits outside any `try`), in which case `run`
propagates the error; the `isinstance(raw_sources, list)` test at line 230
is always true because every return path of `buscar` yields a list. -/
def run (inv_top_k : Nat) (topic query : String) (top_k : Nat)
    (searchB : String → Except String Raw)
    (summB genB rewriteB : String → Except String PyVal) :
    Except String PipelineResult :=
  match buscar inv_top_k query searchB with
  | .error e => .error e
  | .ok sources_list =>
    let draft := generar_resumen topic sources_list summB genB
    let review := evaluar_texto draft sources_list
    let final_text :=
      match rewriteB (rewritePrompt draft review) with
      | .ok resp => extractRewrite resp
      | .error _ => draft ++ "\n\n### Ajustes sugeridos:\n" ++ review
    .ok ⟨sources_list, draft, review, assembleFull topic sources_list final_text review⟩

/-- A search backend that raises with message `e` (models a network
failure inside `DuckDuckGoSearchRun.run`). -/
def failSearch (e : String) : String → Except String Raw :=
  fun _ => .error e

/-- A search backend that returns the payload `r`. -/
def okRaw (r : Raw) : String → Except String Raw :=
  fun _ => .ok r

/-- A generation backend that raises with message `e`. -/
def failB (e : String) : String → Except String PyVal :=
  fun _ => .error e

/-- A generation backend that returns the response `v`. -/
def okResp (v : PyVal) : String → Except String PyVal :=
  fun _ => .ok v

/-- A generation backend that returns the bare string `s`. -/
def okStr (s : String) : String → Except String PyVal :=
  fun _ => .ok (.str s)

/-- C9: the heuristic Review Stage is deterministic.  The source of
`Revisor.evaluar_texto` uses no randomness and no hidden state, so its
embedding is a pure total function of its arguments and two invocations
on the same draft (and sources) agree definitionally. -/
theorem c9_evaluar_texto_deterministic (draft : String) (sources : List SourceRecord) :
    evaluar_texto draft sources = evaluar_texto draft sources := rfl

/-- C10: the output of the heuristic Review Stage does not depend on its
`sources` argument — the parameter is accepted but never read by the body
of `Revisor.evaluar_texto`, so any two source lists give the same
output for the same draft. -/
theorem c10_evaluar_texto_ignores_sources (draft : String)
    (s1 s2 : List SourceRecord) :
    evaluar_texto draft s1 = evaluar_texto draft s2 := rfl

/-- C7: when both the summarization attempt and the text-generation
fallback fail, `generar_resumen` does not raise: it returns the
diagnostic string `"Error en generación de resumen: <e>"`, which carries
the prefix `"Error"`; and `Coordinator.run` hands exactly that string to
the Review Stage as the draft, so downstream stages operate on it. -/
theorem c7_draft_error_contained (topic : String) (sources : List SourceRecord)
    (e1 e2 : String) :
    generar_resumen topic sources (failB e1) (failB e2)
      = "Error" ++ (" en generación de resumen: " ++ e2) ∧
    (∀ (invk tk : Nat) (query s : String) (rwB : String → Except String PyVal),
      ∃ r, run invk topic query tk (okRaw (Raw.str s)) (failB e1) (failB e2) rwB
          = Except.ok r ∧
        r.draft = "Error" ++ (" en generación de resumen: " ++ e2) ∧
        r.review = evaluar_texto r.draft r.sources) :=
  ⟨rfl, fun _ _ _ _ _ => ⟨_, rfl, rfl, rfl⟩⟩

/-- C1 counterexample: a search backend that raises is NOT contained by
`Investigador.buscar` — the backend call sits before the `try` block — so
`buscar` returns no one-element degraded result, and the error propagates
out of `Coordinator.run` as well, refuting the claim at this input. -/
theorem c1_cex :
    buscar 5 "q" (failSearch "network down") = Except.error "network down" ∧
    run 5 "t" "q" 5 (failSearch "network down")
        (okStr "s") (okStr "s") (okStr "s") = Except.error "network down" :=
  ⟨rfl, rfl⟩

/-- C1 amended: only a malformed payload (one whose parsing inside the
`try` block raises) is converted into a single synthetic record whose
snippet carries the failure description, without raising; an exception
raised by the search call itself propagates out of `buscar` and out of
`Coordinator.run`. -/
theorem c1_fetch_failure_policy (k : Nat) (q e : String) :
    buscar k q (okRaw (Raw.malformed e))
      = Except.ok [⟨"error", "Error parseo DuckDuckGo: " ++ e, ""⟩] ∧
    (∀ e2, buscar k q (failSearch e2) = Except.error e2) ∧
    (∀ (invk tk : Nat) (topic : String) (e2 : String)
       (summB genB rwB : String → Except String PyVal),
      run invk topic q tk (failSearch e2) summB genB rwB = Except.error e2) :=
  ⟨rfl, fun _ => rfl, fun _ _ _ _ _ _ _ => rfl⟩

/-- C3 counterexample: the Drafting Stage extraction does not return
exactly `X`.  A summarization response `{"summary_text": " hi "}` yields
the stripped `"hi"`, and a summarization response
`{"generated_text": "hi"}` is not recognized in that path at all — it
falls to the raw string coercion of the whole mapping. -/
theorem c3_cex :
    generar_resumen "t" [] (okResp (PyVal.dict [("summary_text", " hi ")]))
        (okStr "z") = "hi" ∧
    ("hi" : String) ≠ " hi " ∧
    generar_resumen "t" [] (okResp (PyVal.dict [("generated_text", "hi")]))
        (okStr "z") = "\x7b\x27generated_text\x27: \x27hi\x27\x7d" := by
  refine ⟨by decide, by decide, by decide⟩

/-- C3 amended: in the summarization path a `{"summary_text": X}` response
yields `X` stripped of surrounding whitespace; a `{"generated_text": X}`
response and a one-element sequence wrapping it are recognized only in
the text-generation fallback path (entered when summarization fails),
where they also yield `X` stripped; unrecognized shapes fall to a raw
string coercion. -/
theorem c3_extraction_order (x topic : String) (sources : List SourceRecord)
    (genB : String → Except String PyVal) (e : String) :
    generar_resumen topic sources (okResp (PyVal.dict [("summary_text", x)])) genB
      = pyStrip x ∧
    generar_resumen topic sources (failB e)
        (okResp (PyVal.dict [("generated_text", x)])) = pyStrip x ∧
    generar_resumen topic sources (failB e)
        (okResp (PyVal.list [PyItem.dict [("generated_text", x)]])) = pyStrip x :=
  ⟨rfl, rfl, rfl⟩

/-- C2 counterexample: with the finalization backend failing, the `final`
field of the pipeline result is the assembled document, whose first
character is the `'#'` of the `"# Resumen final - ..."` header, while the
concatenation `draft + "\n\n### adjustments:\n" + review` claimed by the
spec starts with the draft (here `"x"`); the two strings therefore differ
(the code's fallback also spells its header `"### Ajustes sugeridos:"`,
not `"### adjustments:"`). -/
theorem c2_cex :
    ((run 5 "t" "q" 5 (okRaw (Raw.str "hello"))
        (okResp (PyVal.dict [("summary_text", "x")])) (okStr "y")
        (failB "down")).toOption.map
      (fun r => r.final.data.head?
        == (r.draft ++ "\n\n### adjustments:\n" ++ r.review).data.head?))
      = some false := by decide

/-- C2 amended: whenever the finalization (rewrite) backend fails and the
search backend returned a payload, `Coordinator.run` does not raise, and
its final document is the assembled output embedding the fallback text
`draft ++ "\n\n### Ajustes sugeridos:\n" ++ review` (the Spanish literal
of the source, not `"### adjustments:"`) as the final-summary section. -/
theorem c2_finalization_fallback (invk : Nat) (topic query : String) (tk : Nat)
    (raw : Raw) (summB genB : String → Except String PyVal) (e : String) :
    ∃ r, run invk topic query tk (okRaw raw) summB genB (failB e) = Except.ok r ∧
      r.final = assembleFull topic r.sources
        (r.draft ++ "\n\n### Ajustes sugeridos:\n" ++ r.review) r.review :=
  ⟨_, rfl, rfl⟩

/-- C4 counterexample: for a mapping carrying both `snippet` and `body`
keys (and both `url` and `link`), `buscar` reads the snippet from `body`
and the url from `link` — the opposite priority of the claim, which says
`snippet` falling back to `body` and `url` falling back to `link`. -/
theorem c4_cex :
    (buscar 1 "q" (okRaw (Raw.list
        [RawItem.dict [("title", "t"), ("snippet", "s"), ("body", "b"),
                       ("url", "u"), ("link", "l")]]))).toOption
      = some [⟨"t", "b", "l"⟩] ∧
    (buscar 1 "q" (okRaw (Raw.list
        [RawItem.dict [("title", "t"), ("snippet", "s"), ("body", "b"),
                       ("url", "u"), ("link", "l")]]))).toOption
      ≠ some [⟨"t", "s", "u"⟩] := by
  refine ⟨by decide, by decide⟩

/-- C4 amended: for a raw result that is a sequence of at least `top_k`
mappings, `fetch` returns exactly `top_k` records preserving order, with
`title` read from `title`, `snippet` read from `body` falling back to
`snippet`, `url` read from `link` falling back to `url`, and any missing
field defaulting to the empty string. -/
theorem c4_mapping_normalization (k : Nat) (q : String)
    (kvss : List (List (String × String))) (h : k ≤ kvss.length) :
    ∃ recs, buscar k q (okRaw (Raw.list (kvss.map RawItem.dict))) = Except.ok recs ∧
      recs = (kvss.take k).map (fun kvs =>
          (⟨pyGet kvs "title" "", pyGet kvs "body" (pyGet kvs "snippet" ""),
            pyGet kvs "link" (pyGet kvs "url" "")⟩ : SourceRecord)) ∧
      recs.length = k := by
  refine ⟨_, rfl, ?_, ?_⟩
  · show ((kvss.map RawItem.dict).take k).map normItem = _
    rw [← List.map_take, List.map_map]
    rfl
  · show (((kvss.map RawItem.dict).take k).map normItem).length = k
    rw [List.length_map, List.length_take, List.length_map]
    exact Nat.min_eq_left h

/-- C4 witness: the amended statement applied at a concrete one-mapping
input with `top_k = 1`. -/
theorem c4_witness :
    (1 : Nat) ≤ ([[("title", "t")]] : List (List (String × String))).length ∧
    (∃ recs, buscar 1 "q" (okRaw (Raw.list ([[("title", "t")]].map RawItem.dict)))
        = Except.ok recs ∧
      recs = ([[("title", "t")]].take 1).map (fun kvs =>
          (⟨pyGet kvs "title" "", pyGet kvs "body" (pyGet kvs "snippet" ""),
            pyGet kvs "link" (pyGet kvs "url" "")⟩ : SourceRecord)) ∧
      recs.length = 1) :=
  ⟨by decide, c4_mapping_normalization 1 "q" [[("title", "t")]] (by decide)⟩

/-- C5 counterexample: for the bare-string raw payload `"hello"` with
query `"topic"`, the line heuristic of `buscar` classifies the short line
as a title, so the single returned record is `("hello", "", "")` — its
snippet is empty rather than the whole string, and its title is the
string itself rather than the topic, refuting the claim. -/
theorem c5_cex :
    (buscar 5 "topic" (okRaw (Raw.str "hello"))).toOption
      = some [⟨"hello", "", ""⟩] ∧
    (buscar 5 "topic" (okRaw (Raw.str "hello"))).toOption
      ≠ some [⟨"topic", "hello", ""⟩] := by
  refine ⟨by decide, by decide⟩

/-- C5 amended: for a bare-string raw payload that is a single stripped
line with more than 10 whitespace-separated words and no occurrence of
`"http"`, `buscar` (with `top_k ≥ 1`) returns exactly one record whose
snippet is the whole string — but with empty title and url, the topic
appearing nowhere (the `title = query` fallback of the source fires only
when no line parses at all). -/
theorem c5_bare_string (k : Nat) (q s : String)
    (hk : 1 ≤ k)
    (hline : pySplitlines s = [s])
    (hstrip : pyStrip s = s)
    (hstrip2 : pyStrip ("" ++ " " ++ s) = s)
    (hne : s ≠ "")
    (hstart : strStartsWith s "http" = false)
    (hhttp : containsSubstr s "http" = false)
    (hwords : 10 < pyWords s) :
    buscar k q (okRaw (Raw.str s)) = Except.ok [⟨"", s, ""⟩] := by
  obtain ⟨j, rfl⟩ : ∃ j, k = j + 1 := ⟨k - 1, (Nat.succ_pred_eq_of_pos hk).symm⟩
  have hnle : ¬ (pyWords s ≤ 10) := Nat.not_le.mpr hwords
  have hpl : parseLine ([], ⟨"", "", ""⟩) s = ([], ⟨"", s, ""⟩) := by
    simp only [parseLine, hstart, hhttp, Bool.or_self, Bool.false_eq_true, if_false]
    rw [if_neg (fun hc => hnle hc.1)]
    simp only [hstrip2]
  simp [buscar, okRaw, parseRaw, hline, hstrip, hpl, anyFields, hne, List.filter_cons]

/-- C5 witness: the amended statement applied to an 11-word single-line
string with `top_k = 3`. -/
theorem c5_witness :
    ((1 : Nat) ≤ 3 ∧
     pySplitlines "a b c d e f g h i j k" = ["a b c d e f g h i j k"] ∧
     pyStrip "a b c d e f g h i j k" = "a b c d e f g h i j k" ∧
     pyStrip ("" ++ " " ++ "a b c d e f g h i j k") = "a b c d e f g h i j k" ∧
     "a b c d e f g h i j k" ≠ "" ∧
     strStartsWith "a b c d e f g h i j k" "http" = false ∧
     containsSubstr "a b c d e f g h i j k" "http" = false ∧
     10 < pyWords "a b c d e f g h i j k") ∧
    buscar 3 "q" (okRaw (Raw.str "a b c d e f g h i j k"))
      = Except.ok [⟨"", "a b c d e f g h i j k", ""⟩] :=
  ⟨⟨by decide, by decide, by decide, by decide, by decide, by decide, by decide,
    by decide⟩,
   c5_bare_string 3 "q" "a b c d e f g h i j k" (by decide) (by decide) (by decide)
     (by decide) (by decide) (by decide) (by decide) (by decide)⟩

/-- C6 counterexample: calling `Coordinator.run` with `top_k = 0` does not
yield an empty source sequence — the `top_k` parameter of `run` is never
passed on.  Here the Investigador was constructed with `top_k = 1` and
the backend returns one mapping, so the run called with `top_k = 0`
still produces one source. -/
theorem c6_cex :
    (run 1 "t" "q" 0 (okRaw (Raw.list [RawItem.dict [("title", "a")]]))
        (okStr "s") (okStr "s") (okStr "s")).toOption.map
      (fun r => r.sources.length) = some 1 := by decide

/-- C6 amended: the `top_k` argument of `Coordinator.run` is unused — the
result is identical for any two values of it — and the boundary behaviour
belongs to the Investigador: constructed with `top_k = 0`, any string or
sequence payload yields an empty source sequence, the Drafting Stage
receives that empty list (the draft equals `generar_resumen` on `[]`),
and no stage raises. -/
theorem c6_top_k_boundary (invk : Nat) (topic query : String) (tk tk2 : Nat)
    (s : String) (items : List RawItem)
    (searchB : String → Except String Raw)
    (summB genB rwB : String → Except String PyVal) :
    run invk topic query tk searchB summB genB rwB
      = run invk topic query tk2 searchB summB genB rwB ∧
    (∃ r, run 0 topic query tk (okRaw (Raw.str s)) summB genB rwB = Except.ok r ∧
      r.sources = [] ∧ r.draft = generar_resumen topic [] summB genB) ∧
    (∃ r, run 0 topic query tk (okRaw (Raw.list items)) summB genB rwB = Except.ok r ∧
      r.sources = [] ∧ r.draft = generar_resumen topic [] summB genB) :=
  ⟨rfl, ⟨_, rfl, rfl, rfl⟩, ⟨_, rfl, rfl, rfl⟩⟩

/-- C8: whenever `buscar` returns (rather than propagating a search-call
exception) and `top_k ≥ 1`, the returned sequence has length at most
`top_k`; each returned record carries all three fields `title`,
`snippet`, `url` by construction of `SourceRecord`, possibly as the
empty string. -/
theorem c8_fetch_length_bound (top_k : Nat) (h : 1 ≤ top_k) (query : String)
    (backend : String → Except String Raw) (recs : List SourceRecord) :
    buscar top_k query backend = Except.ok recs → recs.length ≤ top_k := by
  intro hb
  unfold buscar at hb
  cases hq : backend query with
  | error e => rw [hq] at hb; exact absurd hb (by simp)
  | ok raw =>
    rw [hq] at hb
    have hr : recs = parseRaw top_k query raw := by
      injection hb with h2; exact h2.symm
    subst hr
    cases raw with
    | list items =>
      simp only [parseRaw, List.length_map]
      exact List.length_take_le _ _
    | str s =>
      simp only [parseRaw]
      exact List.length_take_le _ _
    | malformed e =>
      simpa [parseRaw] using h

/-- C8 witness: the bound applied at `top_k = 2` on a malformed payload,
the one raw shape whose result is not literally truncated by `take`. -/
theorem c8_witness :
    (1 : Nat) ≤ 2 ∧
    ([(⟨"error", "Error parseo DuckDuckGo: boom", ""⟩ : SourceRecord)]).length ≤ 2 :=
  ⟨by decide,
   c8_fetch_length_bound 2 (by decide) "q" (okRaw (Raw.malformed "boom")) _ rfl⟩

end Agents
